import Mathlib

/-!
Shallow embedding of
`app/packages/core/src/components/Modal/Group/GroupContextProvider.tsx`:
a React context provider that shares a looker-registration callback with a
component subtree, followed by the Relay-generated `DatasetQuery` request
descriptor the same file exports.
-/

/-- Model of a JavaScript runtime value, as far as this file needs one:
the callbacks here either return `undefined` or nothing observable. -/
inductive JSValue where
  | undefined
  deriving DecidableEq, Repr

/-- Model of the mutable JavaScript world a callback could act on. -/
abbrev JSState := Nat

/-- Model of the external `Lookers` type imported from `@fiftyone/state`
(opaque to this file; only its identity matters). -/
structure Lookers where
  id : Nat
  deriving DecidableEq, Repr

/-- A `(looker: Lookers) => void` JavaScript function: it receives the world,
and yields the (possibly changed) world together with its return value. -/
def LookerCallback := Lookers → JSState → JSState × JSValue

/-- The `GroupContext` type: a record with the single field
`lookerRefCallback`. -/
structure GroupContext where
  lookerRefCallback : LookerCallback

/-- `defaultOptions`: the default context value; its callback is the
empty-body arrow function `() => {}`, which changes nothing and returns
`undefined`. -/
def defaultOptions : GroupContext :=
  { lookerRefCallback := fun _ s => (s, JSValue.undefined) }

/-- A rendered React node, as far as the context semantics needs: ordinary
host elements with child lists, and `groupContext.Provider` elements that
carry a context value and wrap one child. -/
inductive ReactNode where
  | host (tag : String) (children : List ReactNode)
  | provider (value : GroupContext) (children : ReactNode)

/-- The props of `GroupContextProvider`: `children` and
`lookerRefCallback`. -/
structure GroupContextProviderProps where
  children : ReactNode
  lookerRefCallback : LookerCallback

/-- `GroupContextProvider`: renders a `groupContext.Provider` whose value is
`{ lookerRefCallback }` around its `children`. -/
def GroupContextProvider (props : GroupContextProviderProps) : ReactNode :=
  ReactNode.provider { lookerRefCallback := props.lookerRefCallback } props.children

/-- The list of children a node renders. -/
def ReactNode.childList : ReactNode → List ReactNode
  | .host _ cs => cs
  | .provider _ c => [c]

/-- The context value a node passes down to its children: a
`groupContext.Provider` replaces the ambient value, every other node passes
it through unchanged. -/
def ReactNode.passDown (env : GroupContext) : ReactNode → GroupContext
  | .provider v _ => v
  | .host _ _ => env

/-- The context value visible to a `useContext(groupContext)` call inside the
component at path `p` of tree `t`, when the ambient value above `t` is
`env`; `none` when `p` addresses no node. -/
def envAt : GroupContext → ReactNode → List Nat → Option GroupContext
  | env, _, [] => some env
  | env, t, i :: p =>
    match t.childList[i]? with
    | some c => envAt (t.passDown env) c p
    | none => none

/-- `useGroupContext` (that is, `useContext(groupContext)`) at path `p` of a
rendered root `t`: the nearest enclosing provider value, `defaultOptions`
when no provider is an ancestor. -/
def useGroupContextAt (t : ReactNode) (p : List Nat) : Option GroupContext :=
  envAt defaultOptions t p

/-- `true` when following `p` from `t` steps through a
`groupContext.Provider` node strictly before reaching the target. -/
def crossesProvider : ReactNode → List Nat → Bool
  | _, [] => false
  | .provider _ _, _ :: _ => true
  | .host _ cs, i :: p =>
    match cs[i]? with
    | some c => crossesProvider c p
    | none => false

/-- `true` when `p` addresses a node of `t`. -/
def validPath : ReactNode → List Nat → Bool
  | _, [] => true
  | t, i :: p =>
    match t.childList[i]? with
    | some c => validPath c p
    | none => false

/-- The context value a node supplies to its subtree, when it is a provider. -/
def providedValue : ReactNode → Option GroupContext
  | .provider v _ => some v
  | .host _ _ => none

/-- A concrete callback: registers nothing, returns `undefined`. -/
def cbA : LookerCallback := fun _ s => (s, JSValue.undefined)

/-- A concrete callback distinguishable from `cbA`: it bumps the world. -/
def cbB : LookerCallback := fun _ s => (s + 1, JSValue.undefined)

/-- A `LocalArgument` entry of `argumentDefinitions` (the `v0` array). -/
structure LocalArgument where
  defaultValue : Option String
  kind : String
  name : String
  deriving DecidableEq, Repr

/-- A `Variable` argument attached to a field (the `args` of `dataset`). -/
structure FieldArg where
  kind : String
  name : String
  variableName : String
  deriving DecidableEq, Repr

/-- A Relay selection node: a `ScalarField`, or a `LinkedField` with its own
selection list. `aliasName` carries the JSON key `alias`. -/
inductive Selection where
  | scalarField (aliasName : Option String) (args : Option (List FieldArg))
      (name : String) (storageKey : Option String)
  | linkedField (aliasName : Option String) (args : Option (List FieldArg))
      (concreteType : Option String) (name : String) (plural : Bool)
      (selections : List Selection) (storageKey : Option String)

/-- The response key a selection selects. -/
def Selection.fieldName : Selection → String
  | .scalarField _ _ n _ => n
  | .linkedField _ _ _ n _ _ _ => n

/-- The nested selection list of a selection (empty for scalar fields). -/
def Selection.subSelections : Selection → List Selection
  | .scalarField _ _ _ _ => []
  | .linkedField _ _ _ _ _ sels _ => sels

/-- The field names a selection list selects, in order. -/
def selectionNames (sels : List Selection) : List String :=
  sels.map Selection.fieldName

/-- The first selection named `n` in a selection list. -/
def findSelection (n : String) : List Selection → Option Selection
  | [] => none
  | s :: rest => if s.fieldName = n then some s else findSelection n rest

/-- `v0`: the two argument definitions, `name` and `view`. -/
def v0 : List LocalArgument :=
  [ { defaultValue := none, kind := "LocalArgument", name := "name" },
    { defaultValue := none, kind := "LocalArgument", name := "view" } ]

/-- `v1`: the shared `name` scalar selection. -/
def v1 : Selection := .scalarField none none "name" none

/-- `v2`: the shared per-field schema selections. -/
def v2 : List Selection :=
  [ .scalarField none none "ftype" none,
    .scalarField none none "subfield" none,
    .scalarField none none "embeddedDocType" none,
    .scalarField none none "path" none,
    .scalarField none none "dbField" none ]

/-- `v3`: the shared `{ target, value }` pair selections. -/
def v3 : List Selection :=
  [ .scalarField none none "target" none,
    .scalarField none none "value" none ]

/-- `v4`: the shared `key` scalar selection. -/
def v4 : Selection := .scalarField none none "key" none

/-- `v5`: the shared `version` scalar selection. -/
def v5 : Selection := .scalarField none none "version" none

/-- `v6`: the shared `timestamp` scalar selection. -/
def v6 : Selection := .scalarField none none "timestamp" none

/-- `v7`: the shared `viewStages` scalar selection. -/
def v7 : Selection := .scalarField none none "viewStages" none

/-- `v8`: the shared `cls` scalar selection. -/
def v8 : Selection := .scalarField none none "cls" none

/-- `v9`: the root selection list: the single `dataset` linked field with its
full selection set. -/
def v9 : List Selection :=
  [ .linkedField none
      (some [ { kind := "Variable", name := "name", variableName := "name" },
              { kind := "Variable", name := "view", variableName := "view" } ])
      (some "Dataset") "dataset" false
      [ .scalarField none none "id" none,
        v1,
        .scalarField none none "mediaType" none,
        .linkedField none none (some "SampleField") "sampleFields" true v2 none,
        .linkedField none none (some "SampleField") "frameFields" true v2 none,
        .linkedField none none (some "SidebarGroup") "appSidebarGroups" true
          [ v1, .scalarField none none "paths" none ] none,
        .linkedField none none (some "NamedTargets") "maskTargets" true
          [ v1, .linkedField none none (some "Target") "targets" true v3 none ] none,
        .linkedField none none (some "Target") "defaultMaskTargets" true v3 none,
        .linkedField none none (some "EvaluationRun") "evaluations" true
          [ v4, v5, v6, v7,
            .linkedField none none (some "EvaluationRunConfig") "config" false
              [ v8,
                .scalarField none none "predField" none,
                .scalarField none none "gtField" none ] none ] none,
        .linkedField none none (some "BrainRun") "brainMethods" true
          [ v4, v5, v6, v7,
            .linkedField none none (some "BrainRunConfig") "config" false
              [ v8,
                .scalarField none none "embeddingsField" none,
                .scalarField none none "method" none,
                .scalarField none none "patchesField" none ] none ] none,
        .scalarField none none "lastLoadedAt" none,
        .scalarField none none "createdAt" none,
        v5 ]
      none ]

/-- The `fragment` part of the descriptor. -/
structure Fragment where
  argumentDefinitions : List LocalArgument
  kind : String
  metadata : Option String
  name : String
  selections : List Selection
  type : String
  abstractKey : Option String

/-- The `operation` part of the descriptor. -/
structure Operation where
  argumentDefinitions : List LocalArgument
  kind : String
  name : String
  selections : List Selection

/-- The `params` part of the descriptor; `metadata` is the empty object. -/
structure Params where
  cacheID : String
  id : Option String
  metadata : List (String × String)
  name : String
  operationKind : String
  text : String
  deriving DecidableEq, Repr

/-- The `ConcreteRequest` shape, together with the `hash` property the module
assigns after construction. -/
structure ConcreteRequest where
  fragment : Fragment
  kind : String
  operation : Operation
  params : Params
  hash : Option String

/-- The GraphQL source text of the operation (`node.params.text`); `\x7b` and
`\x7d` denote the braces of the GraphQL syntax. -/
def datasetQueryText : String :=
  "query DatasetQuery(\n  $name: String!\n  $view: JSONArray\n) \x7b\n  dataset(name: $name, view: $view) \x7b\n    id\n    name\n    mediaType\n    sampleFields \x7b\n      ftype\n      subfield\n      embeddedDocType\n      path\n      dbField\n    \x7d\n    frameFields \x7b\n      ftype\n      subfield\n      embeddedDocType\n      path\n      dbField\n    \x7d\n    appSidebarGroups \x7b\n      name\n      paths\n    \x7d\n    maskTargets \x7b\n      name\n      targets \x7b\n        target\n        value\n      \x7d\n    \x7d\n    defaultMaskTargets \x7b\n      target\n      value\n    \x7d\n    evaluations \x7b\n      key\n      version\n      timestamp\n      viewStages\n      config \x7b\n        cls\n        predField\n        gtField\n      \x7d\n    \x7d\n    brainMethods \x7b\n      key\n      version\n      timestamp\n      viewStages\n      config \x7b\n        cls\n        embeddingsField\n        method\n        patchesField\n      \x7d\n    \x7d\n    lastLoadedAt\n    createdAt\n    version\n  \x7d\n\x7d\n"

/-- The immediately-invoked function that builds the descriptor. Its body
reads no free runtime variable, so the parameter stands for whatever
environment the module happens to be evaluated under. -/
def mkNode {Env : Type} (_ : Env) : ConcreteRequest :=
  { fragment :=
      { argumentDefinitions := v0, kind := "Fragment", metadata := none,
        name := "DatasetQuery", selections := v9, type := "Query",
        abstractKey := none },
    kind := "Request",
    operation :=
      { argumentDefinitions := v0, kind := "Operation",
        name := "DatasetQuery", selections := v9 },
    params :=
      { cacheID := "33bb58955b13aadd3c3abc537b89af36", id := none,
        metadata := [], name := "DatasetQuery", operationKind := "query",
        text := datasetQueryText },
    hash := none }

/-- Evaluating the whole module tail: the IIFE result plus the subsequent
`(node as any).hash = ...` assignment. -/
def moduleExport {Env : Type} (env : Env) : ConcreteRequest :=
  { mkNode env with hash := some "671e9861e5a3128117633ab7554973b0" }

/-- The module's default export, `node`. -/
def node : ConcreteRequest := moduleExport ()

/-- The characters before the first occurrence of `stop`. -/
def takeUntil (stop : Char) : List Char → List Char
  | [] => []
  | c :: cs => if c = stop then [] else c :: takeUntil stop cs

/-- The characters after the first occurrence of `stop`. -/
def dropUntil (stop : Char) : List Char → List Char
  | [] => []
  | c :: cs => if c = stop then cs else dropUntil stop cs

/-- Splits a character list at newlines. -/
def splitLines : List Char → List (List Char)
  | [] => [[]]
  | c :: cs =>
    if c = '\n' then [] :: splitLines cs
    else
      match splitLines cs with
      | l :: ls => (c :: l) :: ls
      | [] => [[c]]

/-- Removes leading and trailing spaces. -/
def trimSpaces (l : List Char) : List Char :=
  ((l.dropWhile (fun c => c = ' ')).reverse.dropWhile (fun c => c = ' ')).reverse

/-- The variable-declaration lines of a GraphQL operation text: the
nonempty lines between the first opening parenthesis and the next closing
one, trimmed. -/
def declaredVariables (t : String) : List String :=
  ((splitLines (takeUntil ')' (dropUntil '(' t.toList))).map
      (fun l => String.mk (trimSpaces l))).filter (fun s => s ≠ "")

/-- The selection set of the `dataset` linked field of the operation. -/
def datasetSelections : List Selection :=
  match findSelection "dataset" node.operation.selections with
  | some s => s.subSelections
  | none => []

/-- The selection set of a named linked field inside `dataset`. -/
def datasetSubSelections (n : String) : List Selection :=
  match findSelection n datasetSelections with
  | some s => s.subSelections
  | none => []

/-- The selection set of the `config` field of a named run list. -/
def runConfigSelections (n : String) : List Selection :=
  match findSelection "config" (datasetSubSelections n) with
  | some s => s.subSelections
  | none => []

/-- The selection set of `targets` inside `maskTargets`. -/
def maskTargetsTargetSelections : List Selection :=
  match findSelection "targets" (datasetSubSelections "maskTargets") with
  | some s => s.subSelections
  | none => []

/-- The dataset fields the spec's external-interface section enumerates:
id, name, media type, the two field schemas, the sidebar groupings, the two
mask-target maps, and the two run lists. This definition follows the spec's
words, for comparison with the selection set taken from the source. -/
def specEnumeratedDatasetFields : List String :=
  [ "id", "name", "mediaType", "sampleFields", "frameFields",
    "appSidebarGroups", "maskTargets", "defaultMaskTargets",
    "evaluations", "brainMethods" ]

/-- The four per-field schema components the spec names (type, subfield,
embedded-document-type, storage-path). This definition follows the spec's
words, for comparison with the selections taken from the source. -/
def specSchemaFieldComponents : List String :=
  [ "ftype", "subfield", "embeddedDocType", "path" ]

/-- When a valid path crosses no `groupContext.Provider`, the ambient
context value is exactly what the addressed component sees. -/
theorem envAt_eq_of_not_crossing :
    ∀ (p : List Nat) (t : ReactNode) (env : GroupContext),
      validPath t p = true → crossesProvider t p = false →
      envAt env t p = some env := by
  intro p
  induction p with
  | nil => intro t env _ _; rfl
  | cons i p ih =>
    intro t env hv hc
    cases t with
    | provider v c => simp [crossesProvider] at hc
    | host tag cs =>
      cases hcs : cs[i]? with
      | none => simp [validPath, ReactNode.childList, hcs] at hv
      | some c =>
        have hv' : validPath c p = true := by
          simpa [validPath, ReactNode.childList, hcs] using hv
        have hc' : crossesProvider c p = false := by
          simpa [crossesProvider, hcs] using hc
        simpa [envAt, ReactNode.childList, ReactNode.passDown, hcs] using
          ih c env hv' hc'

/-- C1: the `DatasetQuery` request declares exactly the two arguments
`name` and `view` — both argument-definition lists name exactly them, and
the query text declares exactly `$name: String!` (required string) and
`$view: JSONArray` (nullable view-stage array). -/
theorem datasetQuery_declares_exactly_name_and_view :
    node.fragment.argumentDefinitions.map LocalArgument.name = ["name", "view"] ∧
    node.operation.argumentDefinitions.map LocalArgument.name = ["name", "view"] ∧
    declaredVariables node.params.text = ["$name: String!", "$view: JSONArray"] :=
  ⟨by decide, by decide, by decide⟩

/-- C2 counterexample: the operation's `dataset` selection set contains a
selection named `lastLoadedAt`, which the spec's enumeration of the
external contract does not include — so the selection set is not exactly
the enumerated fields. -/
theorem datasetSelections_exceed_spec_enumeration :
    "lastLoadedAt" ∈ selectionNames datasetSelections ∧
    "lastLoadedAt" ∉ specEnumeratedDatasetFields := by decide

/-- C2 (amended): the `dataset` selection set selects exactly the fields
the spec enumerates, followed by the three further scalar fields
`lastLoadedAt`, `createdAt` and `version`. -/
theorem datasetSelections_are_spec_enumeration_plus_three :
    selectionNames datasetSelections =
      specEnumeratedDatasetFields ++ ["lastLoadedAt", "createdAt", "version"] := by
  decide

/-- C3 counterexample: the schema-field selection lists select `dbField`,
which is not among the four components the claim enumerates — so the
selected scalar fields are not precisely the four-component set. -/
theorem fieldSelections_include_dbField :
    "dbField" ∈ selectionNames (datasetSubSelections "sampleFields") ∧
    "dbField" ∉ specSchemaFieldComponents := by decide

/-- C3 (amended): every entry of `sampleFields` and `frameFields` selects
precisely the five scalar fields `ftype`, `subfield`, `embeddedDocType`,
`path` and `dbField`. -/
theorem fieldSelections_are_five_components :
    selectionNames (datasetSubSelections "sampleFields") =
      specSchemaFieldComponents ++ ["dbField"] ∧
    selectionNames (datasetSubSelections "frameFields") =
      specSchemaFieldComponents ++ ["dbField"] := ⟨by decide, by decide⟩

/-- C4: both run lists select `key`, `version`, `timestamp`, `viewStages`
and a `config` object, the evaluation config selecting `cls`, `predField`,
`gtField` and the brain-run config selecting `cls`, `embeddingsField`,
`method`, `patchesField`. -/
theorem run_records_carry_key_version_timestamp_stages_config :
    selectionNames (datasetSubSelections "evaluations") =
      ["key", "version", "timestamp", "viewStages", "config"] ∧
    selectionNames (runConfigSelections "evaluations") =
      ["cls", "predField", "gtField"] ∧
    selectionNames (datasetSubSelections "brainMethods") =
      ["key", "version", "timestamp", "viewStages", "config"] ∧
    selectionNames (runConfigSelections "brainMethods") =
      ["cls", "embeddingsField", "method", "patchesField"] :=
  ⟨by decide, by decide, by decide, by decide⟩

/-- C5 counterexample: the claim is false for descendants below a nested
provider — rendering `GroupContextProvider` with callback `cbA` around a
second `GroupContextProvider` with callback `cbB`, the descendant host
component sees `cbB`, not `cbA`. -/
theorem nested_provider_shadows_outer_callback :
    useGroupContextAt
        (GroupContextProvider
          { children :=
              GroupContextProvider
                { children := ReactNode.host "div" [],
                  lookerRefCallback := cbB },
            lookerRefCallback := cbA })
        [0, 0] ≠
      some { lookerRefCallback := cbA } := by
  intro h
  have h1 : (some { lookerRefCallback := cbB } : Option GroupContext) =
      some { lookerRefCallback := cbA } := h
  have h2 : cbB = cbA := congrArg GroupContext.lookerRefCallback (Option.some.inj h1)
  have h3 : (1 : Nat) = 0 := congrArg (fun g => (g ⟨0⟩ 0).1) h2
  exact Nat.one_ne_zero h3

/-- C5 (amended): for every callback `f` and every descendant reached from
the provider's children without stepping through another
`groupContext.Provider`, `useGroupContext` returns a context value whose
`lookerRefCallback` equals `f`. -/
theorem callback_reachable_without_intervening_provider
    (f : LookerCallback) (c : ReactNode) (p : List Nat)
    (hv : validPath c p = true) (hc : crossesProvider c p = false) :
    useGroupContextAt
        (GroupContextProvider { children := c, lookerRefCallback := f })
        (0 :: p) =
      some { lookerRefCallback := f } := by
  show envAt defaultOptions
      (ReactNode.provider { lookerRefCallback := f } c) (0 :: p) =
    some { lookerRefCallback := f }
  simpa [envAt, ReactNode.childList, ReactNode.passDown] using
    envAt_eq_of_not_crossing p c { lookerRefCallback := f } hv hc

/-- C5 witness: the amended theorem applied at a concrete host child. -/
theorem callback_reachable_witness :
    useGroupContextAt
        (GroupContextProvider
          { children := ReactNode.host "div" [], lookerRefCallback := cbA })
        [0] =
      some { lookerRefCallback := cbA } :=
  callback_reachable_without_intervening_provider cbA (ReactNode.host "div" []) []
    rfl rfl

/-- C6: the default callback is a no-op — for every looker and every state
it leaves the state unchanged and returns `undefined`; and a component with
no provider ancestor indeed sees `defaultOptions`. -/
theorem default_callback_is_noop (l : Lookers) (s : JSState) :
    (defaultOptions.lookerRefCallback l s).1 = s ∧
    (defaultOptions.lookerRefCallback l s).2 = JSValue.undefined ∧
    useGroupContextAt (ReactNode.host "div" []) [] = some defaultOptions :=
  ⟨rfl, rfl, rfl⟩

/-- C7: the descriptor is a fixed artifact — evaluating the module under
any two environments yields identical descriptor values, equal to the
exported `node`, with the identical query string. -/
theorem node_descriptor_is_environment_independent {E₁ E₂ : Type}
    (e₁ : E₁) (e₂ : E₂) :
    moduleExport e₁ = moduleExport e₂ ∧ moduleExport e₁ = node ∧
    (moduleExport e₁).params.text = node.params.text :=
  ⟨rfl, rfl, rfl⟩

/-- C8: the node's fragment selections and operation selections are the
identical selection structure `v9`, so the reader view and the network
operation fetch exactly the same fields. -/
theorem fragment_and_operation_share_selections :
    node.fragment.selections = node.operation.selections ∧
    node.fragment.selections = v9 :=
  ⟨rfl, rfl⟩

/-- C9: `sampleFields` and `frameFields` carry the identical per-field
selection list (`v2`), and the named mask targets' `targets` and
`defaultMaskTargets` carry the identical `{ target, value }` selection
list (`v3`). -/
theorem shared_selection_shapes :
    datasetSubSelections "sampleFields" = datasetSubSelections "frameFields" ∧
    datasetSubSelections "sampleFields" = v2 ∧
    maskTargetsTargetSelections = datasetSubSelections "defaultMaskTargets" ∧
    maskTargetsTargetSelections = v3 :=
  ⟨rfl, rfl, rfl, rfl⟩

/-- C10: `GroupContextProvider` only binds the shared context — for every
props value it renders exactly its `children`, and the context value it
supplies is the one-field record holding precisely the `lookerRefCallback`
prop. -/
theorem groupContextProvider_frame (props : GroupContextProviderProps) :
    providedValue (GroupContextProvider props) =
      some { lookerRefCallback := props.lookerRefCallback } ∧
    (GroupContextProvider props).childList = [props.children] :=
  ⟨rfl, rfl⟩
